import Mathlib

/-!
# Replica coordinator (package `replica`, file `replica/server.go`)

A shallow embedding of the `Server` type of `replica/server.go` and of its
methods, followed by theorems about them.

Conventions of the embedding.

* The Go type `*Replica` (the Engine handle) is declared outside `server.go`.
  A handle is a value of an arbitrary type `H`; the field `s.r` is an
  `Option H`, `none` being Go's `nil`.
* Everything the Engine and the Metadata Reader do happens in an external
  world of an arbitrary type `W` (the disk, the Engine's own memory).  Their
  operations are the fields of `Engine H W`; an operation that can change
  the world returns the new world.
* A Go `error` result is an `Option`: `none` is `nil`.  Errors built by
  `fmt.Errorf` in `server.go` are `GoError.Errorf msg`; errors handed back by
  the Engine or the Metadata Reader are `GoError.external e`.
* A Go result `(*Replica, error)` follows the usual convention that exactly
  one of the two is meaningful: it is an `Except ExtError H`.
* Every state-changing Engine operation the coordinator invokes, and every
  acquisition and release of the coordinator's `sync.RWMutex`, is appended to
  `Sys.trace` in program order.  The two read-only observations `Info()` and
  `ReadInfo(dir)` used by the state derivation are functions of the world and
  leave no entry.
* A method invoked through a nil `*Replica` is recorded as
  `Outcome.nilDeref` (Go's nil pointer dereference).
* Calls to `logrus.Infof` are not modelled.
-/

namespace replica

/-! ## Data model -/

/-- The derived replica state: Go `type State string` together with its six
constants (server.go:13-22). -/
inductive State
  | Initial
  | Open
  | Closed
  | Dirty
  | Rebuilding
  | Error
  deriving DecidableEq, Repr

/-- The string value of each `State` constant (server.go:14-19). -/
def State.str : State → String
  | State.Initial => "initial"
  | State.Open => "open"
  | State.Closed => "closed"
  | State.Dirty => "dirty"
  | State.Rebuilding => "rebuilding"
  | State.Error => "error"

/-- Modelled from the spec: the struct `Info` is declared outside server.go;
its fields are those of spec §3 and §6 (size, sector size, dirty flag,
rebuilding flag, revision counter, peer count). -/
structure Info where
  Size : Int
  SectorSize : Int
  Dirty : Bool
  Rebuilding : Bool
  RevisionCounter : Int
  PeerCount : Int
  deriving DecidableEq, Repr

/-- The Go zero value `Info{}`. -/
def Info.zero : Info := ⟨0, 0, false, false, 0, 0⟩

/-- Modelled from the spec: the struct `BackingFile` is declared outside
server.go; server.go reads its fields `Size` and `SectorSize` (spec §3:
overrides effective size and sector size when positive). -/
structure BackingFile where
  Size : Int
  SectorSize : Int
  deriving DecidableEq, Repr

/-- Modelled from the spec: `types.PeerDetails` is declared outside server.go
(spec §3: bookkeeping about peer replicas, a bare peer count). -/
structure PeerDetails where
  ReplicaCount : Int
  deriving DecidableEq, Repr

/-- Modelled from the spec: `PrepareRemoveAction` is declared outside
server.go (spec §3: an instruction produced by the Engine, not inspected by
the coordinator). -/
structure PrepareRemoveAction where
  instruction : String
  deriving DecidableEq, Repr

/-- Modelled from the spec: `types.VolUsage` is declared outside server.go
(spec §4.4: volume usage figures). -/
structure VolUsage where
  figures : List Int
  deriving DecidableEq, Repr

/-- The shape of `types.Stats` as built by `Server.Stats` (server.go:175-178). -/
structure Stats where
  RevisionCounter : Int
  ReplicaCounter : Int
  deriving DecidableEq, Repr

/-- An error value produced outside server.go (by the Engine or by the
Metadata Reader).  `notExist` is what `os.IsNotExist` answers on it. -/
structure ExtError where
  msg : String
  notExist : Bool
  deriving DecidableEq, Repr

/-- A non-nil Go `error` as seen by a caller of the coordinator: either built
by `fmt.Errorf` inside server.go, or passed through from outside. -/
inductive GoError
  | Errorf (msg : String)
  | external (e : ExtError)
  deriving DecidableEq, Repr

/-- The function `os.IsNotExist` applied to an `error` that may be nil. -/
def osIsNotExist : Option ExtError → Bool
  | none => false
  | some e => e.notExist

/-- The verb `%v` of `fmt` applied to a Go `bool`. -/
def fmtBool : Bool → String
  | true => "true"
  | false => "false"

/-- The result of a method that may dereference a nil `*Replica`. -/
inductive Outcome (α : Type)
  | ret (a : α)
  | nilDeref
  deriving DecidableEq, Repr

/-- One observable step of a coordinator method: a lock operation on the
embedded `sync.RWMutex`, or one invocation of a state-changing Engine
operation with its arguments. -/
inductive Event (H : Type)
  | Lock
  | Unlock
  | RLock
  | RUnlock
  | New (size sectorSize : Int) (dir : String) (backing : Option BackingFile) (serverType : String)
  | Close (h : H)
  | Reload (h : H)
  | Revert (h : H) (name created : String)
  | Snapshot (h : H) (name : String) (userCreated : Bool) (createdTime : String)
  | RemoveDiffDisk (h : H) (name : String)
  | ReplaceDisk (h : H) (target source : String)
  | PrepareRemoveDisk (h : H) (name : String)
  | Delete (h : H)
  | WriteAt (h : H) (buf : List Nat) (offset : Int)
  | ReadAt (h : H) (buf : List Nat) (offset : Int)
  | Resize (h : H) (size : String)
  | SetRebuilding (h : H) (rebuilding : Bool)
  | SetRevisionCounter (h : H) (counter : Int)
  | UpdatePeerDetails (h : H) (peerDetails : PeerDetails)
  | GetUsage (h : H)
  deriving DecidableEq, Repr

/-- The external collaborators of spec §6: the Replica Engine capability set
and the Metadata Reader.  Go names: `construct` is the package function
`New`, `readInfo` is `ReadInfo`, every other field is the method of
`*Replica` of the same name; `revisionCache` and `peerCacheReplicaCount` are
the fields `r.revisionCache` and `r.peerCache.ReplicaCount`. -/
structure Engine (H W : Type) where
  construct : Int → Int → String → Option BackingFile → String → W → Except ExtError H × W
  readInfo : String → W → Info × Option ExtError
  info : H → W → Info
  close : H → W → Option ExtError × W
  reload : H → W → Except ExtError H × W
  revert : H → String → String → W → Except ExtError H × W
  snapshot : H → String → Bool → String → W → Option ExtError × W
  removeDiffDisk : H → String → W → Option ExtError × W
  replaceDisk : H → String → String → W → Option ExtError × W
  prepareRemoveDisk : H → String → W → (Option (List PrepareRemoveAction) × Option ExtError) × W
  delete : H → W → Option ExtError × W
  writeAt : H → List Nat → Int → W → (Int × Option ExtError) × W
  readAt : H → List Nat → Int → W → (Int × Option ExtError) × W
  resize : H → String → W → Option ExtError × W
  setRebuilding : H → Bool → W → Option ExtError × W
  setRevisionCounter : H → Int → W → Option ExtError × W
  updatePeerDetails : H → PeerDetails → W → Option ExtError × W
  getUsage : H → W → (Option VolUsage × Option ExtError) × W
  revisionCache : H → W → Int
  peerCacheReplicaCount : H → W → Int

/-- The fields of `type Server struct` (server.go:28-36) that the methods
read or write; the embedded `sync.RWMutex` appears through the lock events of
the trace, and `MonitorChannel` is used by no method of server.go. -/
structure Server (H : Type) where
  r : Option H
  ServerType : String
  dir : String
  defaultSectorSize : Int
  backing : Option BackingFile
  deriving DecidableEq, Repr

/-- A coordinator together with the external world it acts on and the trace
of what it has done so far. -/
structure Sys (H W : Type) where
  s : Server H
  world : W
  trace : List (Event H)
  deriving DecidableEq, Repr

variable {H W : Type} {α : Type}

/-- Append one event to the trace. -/
def Sys.log (c : Sys H W) (ev : Event H) : Sys H W :=
  { c with trace := c.trace ++ [ev] }

/-- The assignment `s.r = v`. -/
def Sys.setR (c : Sys H W) (v : Option H) : Sys H W :=
  { c with s := { c.s with r := v } }

/-- Run one state-changing Engine operation: the world becomes the one it
returns and the invocation is appended to the trace. -/
def Sys.invoke (c : Sys H W) (ev : Event H) (op : W → α × W) : α × Sys H W :=
  ((op c.world).1, { c with world := (op c.world).2, trace := c.trace ++ [ev] })

/-- The prologue `s.Lock(); defer s.Unlock()` around a method body. -/
def exclusive (body : Sys H W → α × Sys H W) (c : Sys H W) : α × Sys H W :=
  ((body (c.log Event.Lock)).1, (body (c.log Event.Lock)).2.log Event.Unlock)

/-- The prologue `s.RLock(); defer s.RUnlock()` around a method body. -/
def shared (body : Sys H W → α × Sys H W) (c : Sys H W) : α × Sys H W :=
  ((body (c.log Event.RLock)).1, (body (c.log Event.RLock)).2.log Event.RUnlock)

/-- The conversion of an error returned by the Engine into the `error` the
coordinator returns unchanged. -/
def passErr : Option ExtError → Option GoError
  | none => none
  | some e => some (GoError.external e)

/-! ## Invocations of the Engine -/

/-- The call `New(size, sectorSize, dir, backing, serverType)`. -/
def New (E : Engine H W) (size sectorSize : Int) (dir : String) (backing : Option BackingFile)
    (serverType : String) (c : Sys H W) : Except ExtError H × Sys H W :=
  c.invoke (Event.New size sectorSize dir backing serverType)
    (E.construct size sectorSize dir backing serverType)

/-- The call `r.Close()`. -/
def Replica.Close (E : Engine H W) (h : H) (c : Sys H W) : Option ExtError × Sys H W :=
  c.invoke (Event.Close h) (E.close h)

/-- The call `r.Reload()`. -/
def Replica.Reload (E : Engine H W) (h : H) (c : Sys H W) : Except ExtError H × Sys H W :=
  c.invoke (Event.Reload h) (E.reload h)

/-- The call `r.Revert(name, created)`. -/
def Replica.Revert (E : Engine H W) (h : H) (name created : String) (c : Sys H W) :
    Except ExtError H × Sys H W :=
  c.invoke (Event.Revert h name created) (E.revert h name created)

/-- The call `r.Snapshot(name, userCreated, createdTime)`. -/
def Replica.Snapshot (E : Engine H W) (h : H) (name : String) (userCreated : Bool)
    (createdTime : String) (c : Sys H W) : Option ExtError × Sys H W :=
  c.invoke (Event.Snapshot h name userCreated createdTime)
    (E.snapshot h name userCreated createdTime)

/-- The call `r.RemoveDiffDisk(name)`. -/
def Replica.RemoveDiffDisk (E : Engine H W) (h : H) (name : String) (c : Sys H W) :
    Option ExtError × Sys H W :=
  c.invoke (Event.RemoveDiffDisk h name) (E.removeDiffDisk h name)

/-- The call `r.ReplaceDisk(target, source)`. -/
def Replica.ReplaceDisk (E : Engine H W) (h : H) (target source : String) (c : Sys H W) :
    Option ExtError × Sys H W :=
  c.invoke (Event.ReplaceDisk h target source) (E.replaceDisk h target source)

/-- The call `r.PrepareRemoveDisk(name)`. -/
def Replica.PrepareRemoveDisk (E : Engine H W) (h : H) (name : String) (c : Sys H W) :
    (Option (List PrepareRemoveAction) × Option ExtError) × Sys H W :=
  c.invoke (Event.PrepareRemoveDisk h name) (E.prepareRemoveDisk h name)

/-- The call `r.Delete()`. -/
def Replica.Delete (E : Engine H W) (h : H) (c : Sys H W) : Option ExtError × Sys H W :=
  c.invoke (Event.Delete h) (E.delete h)

/-- The call `r.WriteAt(buf, offset)`. -/
def Replica.WriteAt (E : Engine H W) (h : H) (buf : List Nat) (offset : Int) (c : Sys H W) :
    (Int × Option ExtError) × Sys H W :=
  c.invoke (Event.WriteAt h buf offset) (E.writeAt h buf offset)

/-- The call `r.ReadAt(buf, offset)`. -/
def Replica.ReadAt (E : Engine H W) (h : H) (buf : List Nat) (offset : Int) (c : Sys H W) :
    (Int × Option ExtError) × Sys H W :=
  c.invoke (Event.ReadAt h buf offset) (E.readAt h buf offset)

/-- The call `r.Resize(size)`. -/
def Replica.Resize (E : Engine H W) (h : H) (size : String) (c : Sys H W) :
    Option ExtError × Sys H W :=
  c.invoke (Event.Resize h size) (E.resize h size)

/-- The call `r.SetRebuilding(rebuilding)`. -/
def Replica.SetRebuilding (E : Engine H W) (h : H) (rebuilding : Bool) (c : Sys H W) :
    Option ExtError × Sys H W :=
  c.invoke (Event.SetRebuilding h rebuilding) (E.setRebuilding h rebuilding)

/-- The call `r.SetRevisionCounter(counter)`. -/
def Replica.SetRevisionCounter (E : Engine H W) (h : H) (counter : Int) (c : Sys H W) :
    Option ExtError × Sys H W :=
  c.invoke (Event.SetRevisionCounter h counter) (E.setRevisionCounter h counter)

/-- The call `r.UpdatePeerDetails(peerDetails)`. -/
def Replica.UpdatePeerDetails (E : Engine H W) (h : H) (peerDetails : PeerDetails)
    (c : Sys H W) : Option ExtError × Sys H W :=
  c.invoke (Event.UpdatePeerDetails h peerDetails) (E.updatePeerDetails h peerDetails)

/-- The call `r.GetUsage()`. -/
def Replica.GetUsage (E : Engine H W) (h : H) (c : Sys H W) :
    (Option VolUsage × Option ExtError) × Sys H W :=
  c.invoke (Event.GetUsage h) (E.getUsage h)

/-! ## The methods of `Server` -/

/-- Method `getSectorSize` (server.go:58-63). -/
def Server.getSectorSize (s : Server H) : Int :=
  match s.backing with
  | some b => if b.SectorSize > 0 then b.SectorSize else s.defaultSectorSize
  | none => s.defaultSectorSize

/-- Method `getSize` (server.go:65-70). -/
def Server.getSize (s : Server H) (size : Int) : Int :=
  match s.backing with
  | some b => if b.Size > 0 then b.Size else size
  | none => size

/-- Method `Status` (server.go:135-154). -/
def Server.Status (E : Engine H W) (c : Sys H W) : State × Info :=
  match c.s.r with
  | none =>
    let info := (E.readInfo c.s.dir c.world).1
    let err := (E.readInfo c.s.dir c.world).2
    if osIsNotExist err then (State.Initial, Info.zero)
    else if err ≠ none then (State.Error, Info.zero)
    else (State.Closed, info)
  | some h =>
    let info := E.info h c.world
    if info.Rebuilding then (State.Rebuilding, info)
    else if info.Dirty then (State.Dirty, info)
    else (State.Open, info)

/-- Method `PrevStatus` (server.go:156-171). -/
def Server.PrevStatus (E : Engine H W) (c : Sys H W) : State × Info :=
  let info := (E.readInfo c.s.dir c.world).1
  let err := (E.readInfo c.s.dir c.world).2
  if osIsNotExist err then (State.Initial, Info.zero)
  else if err ≠ none then (State.Error, Info.zero)
  else if info.Rebuilding then (State.Rebuilding, info)
  else if info.Dirty then (State.Dirty, info)
  else (State.Closed, info)

/-- Method `Create` (server.go:72-92). -/
def Server.Create (E : Engine H W) (size : Int) : Sys H W → Option GoError × Sys H W :=
  exclusive fun c =>
    let state := (Server.Status E c).1
    if state ≠ State.Initial then (none, c)
    else
      let size := c.s.getSize size
      let sectorSize := c.s.getSectorSize
      match New E size sectorSize c.s.dir c.s.backing c.s.ServerType c with
      | (Except.error err, c1) => (some (GoError.external err), c1)
      | (Except.ok r, c1) =>
        match Replica.Close E r c1 with
        | (err, c2) => (passErr err, c2)

/-- Method `Open` (server.go:94-113). -/
def Server.Open (E : Engine H W) : Sys H W → Option GoError × Sys H W :=
  exclusive fun c =>
    match c.s.r with
    | some _ => (some (GoError.Errorf "Replica is already open"), c)
    | none =>
      let info := (Server.Status E c).2
      let size := c.s.getSize info.Size
      let sectorSize := c.s.getSectorSize
      match New E size sectorSize c.s.dir c.s.backing c.s.ServerType c with
      | (Except.error err, c1) => (some (GoError.external err), c1)
      | (Except.ok r, c1) => (none, c1.setR (some r))

/-- Method `Reload` (server.go:115-133). -/
def Server.Reload (E : Engine H W) : Sys H W → Option GoError × Sys H W :=
  exclusive fun c =>
    match c.s.r with
    | none => (none, c)
    | some h =>
      match Replica.Reload E h c with
      | (Except.error err, c1) => (some (GoError.external err), c1)
      | (Except.ok newReplica, c1) =>
        let oldReplica := h
        let c2 := c1.setR (some newReplica)
        let c3 := (Replica.Close E oldReplica c2).2
        (none, c3)

/-- Method `SetRebuilding` (server.go:185-197). -/
def Server.SetRebuilding (E : Engine H W) (rebuilding : Bool) :
    Sys H W → Outcome (Option GoError) × Sys H W :=
  exclusive fun c =>
    let state := (Server.Status E c).1
    if (rebuilding && state != State.Open && state != State.Dirty) ||
        (!rebuilding && state != State.Rebuilding) then
      (Outcome.ret (some (GoError.Errorf
        ("Can not set rebuilding=" ++ fmtBool rebuilding ++ " from state " ++ state.str))), c)
    else
      match c.s.r with
      | none => (Outcome.nilDeref, c)
      | some h =>
        match Replica.SetRebuilding E h rebuilding c with
        | (err, c1) => (Outcome.ret (passErr err), c1)

/-- Method `Resize` (server.go:199-203). -/
def Server.Resize (E : Engine H W) (size : String) :
    Sys H W → Outcome (Option GoError) × Sys H W :=
  exclusive fun c =>
    match c.s.r with
    | none => (Outcome.nilDeref, c)
    | some h =>
      match Replica.Resize E h size c with
      | (err, c1) => (Outcome.ret (passErr err), c1)

/-- Method `Replica` (server.go:205-207). -/
def Server.Replica (c : Sys H W) : Option H :=
  c.s.r

/-- Method `Revert` (server.go:209-225). -/
def Server.Revert (E : Engine H W) (name created : String) :
    Sys H W → Option GoError × Sys H W :=
  exclusive fun c =>
    match c.s.r with
    | none => (none, c)
    | some h =>
      match Replica.Revert E h name created c with
      | (Except.error err, c1) => (some (GoError.external err), c1)
      | (Except.ok r, c1) => (none, c1.setR (some r))

/-- Method `Snapshot` (server.go:227-238). -/
def Server.Snapshot (E : Engine H W) (name : String) (userCreated : Bool) (createdTime : String) :
    Sys H W → Option GoError × Sys H W :=
  exclusive fun c =>
    match c.s.r with
    | none => (none, c)
    | some h =>
      match Replica.Snapshot E h name userCreated createdTime c with
      | (err, c1) => (passErr err, c1)

/-- Method `RemoveDiffDisk` (server.go:240-250). -/
def Server.RemoveDiffDisk (E : Engine H W) (name : String) :
    Sys H W → Option GoError × Sys H W :=
  exclusive fun c =>
    match c.s.r with
    | none => (none, c)
    | some h =>
      match Replica.RemoveDiffDisk E h name c with
      | (err, c1) => (passErr err, c1)

/-- Method `ReplaceDisk` (server.go:252-262). -/
def Server.ReplaceDisk (E : Engine H W) (target source : String) :
    Sys H W → Option GoError × Sys H W :=
  exclusive fun c =>
    match c.s.r with
    | none => (none, c)
    | some h =>
      match Replica.ReplaceDisk E h target source c with
      | (err, c1) => (passErr err, c1)

/-- Method `PrepareRemoveDisk` (server.go:264-274). -/
def Server.PrepareRemoveDisk (E : Engine H W) (name : String) :
    Sys H W → (Option (List PrepareRemoveAction) × Option GoError) × Sys H W :=
  exclusive fun c =>
    match c.s.r with
    | none => ((none, none), c)
    | some h =>
      match Replica.PrepareRemoveDisk E h name c with
      | ((actions, err), c1) => ((actions, passErr err), c1)

/-- Method `Delete` (server.go:276-292). -/
def Server.Delete (E : Engine H W) : Sys H W → Option GoError × Sys H W :=
  exclusive fun c =>
    match c.s.r with
    | none => (none, c)
    | some h =>
      match Replica.Close E h c with
      | (some err, c1) => (some (GoError.external err), c1)
      | (none, c1) =>
        match Replica.Delete E h c1 with
        | (err, c2) => (passErr err, c2.setR none)

/-- Method `Close` (server.go:294-309). -/
def Server.Close (E : Engine H W) : Sys H W → Option GoError × Sys H W :=
  exclusive fun c =>
    match c.s.r with
    | none => (none, c)
    | some h =>
      match Replica.Close E h c with
      | (some err, c1) => (some (GoError.external err), c1)
      | (none, c1) => (none, c1.setR none)

/-- Method `WriteAt` (server.go:311-320).  The bytes of `buf` travel between
the caller and the Engine through the slice; the coordinator passes the slice
on without reading or writing it. -/
def Server.WriteAt (E : Engine H W) (buf : List Nat) (offset : Int) :
    Sys H W → (Int × Option GoError) × Sys H W :=
  shared fun c =>
    match c.s.r with
    | none => ((0, some (GoError.Errorf "Volume no longer exist")), c)
    | some h =>
      match Replica.WriteAt E h buf offset c with
      | ((i, err), c1) => ((i, passErr err), c1)

/-- Method `ReadAt` (server.go:335-344). -/
def Server.ReadAt (E : Engine H W) (buf : List Nat) (offset : Int) :
    Sys H W → (Int × Option GoError) × Sys H W :=
  shared fun c =>
    match c.s.r with
    | none => ((0, some (GoError.Errorf "Volume no longer exist")), c)
    | some h =>
      match Replica.ReadAt E h buf offset c with
      | ((i, err), c1) => ((i, passErr err), c1)

/-- Method `SetRevisionCounter` (server.go:346-354). -/
def Server.SetRevisionCounter (E : Engine H W) (counter : Int) :
    Sys H W → Option GoError × Sys H W :=
  exclusive fun c =>
    match c.s.r with
    | none => (none, c)
    | some h =>
      match Replica.SetRevisionCounter E h counter c with
      | (err, c1) => (passErr err, c1)

/-- Method `UpdatePeerDetails` (server.go:356-365). -/
def Server.UpdatePeerDetails (E : Engine H W) (peerDetails : PeerDetails) :
    Sys H W → Option GoError × Sys H W :=
  exclusive fun c =>
    match c.s.r with
    | none => (none, c)
    | some h =>
      match Replica.UpdatePeerDetails E h peerDetails c with
      | (err, c1) => (passErr err, c1)

/-- Method `PingResponse` (server.go:367-373). -/
def Server.PingResponse (E : Engine H W) (c : Sys H W) : Option GoError :=
  let state := (Server.Status E c).1
  if state != State.Open && state != State.Dirty && state != State.Rebuilding then
    some (GoError.Errorf ("ping failure: replica state " ++ state.str))
  else none

/-- Method `Stats` (server.go:173-179): reads two fields through `s.r`
without a nil check and without taking the lock. -/
def Server.Stats (E : Engine H W) (c : Sys H W) : Outcome Stats :=
  match c.s.r with
  | none => Outcome.nilDeref
  | some r => Outcome.ret ⟨E.revisionCache r c.world, E.peerCacheReplicaCount r c.world⟩

/-- Method `GetUsage` (server.go:181-183): calls through `s.r` without a nil
check and without taking the lock. -/
def Server.GetUsage (E : Engine H W) (c : Sys H W) :
    Outcome (Option VolUsage × Option GoError) × Sys H W :=
  match c.s.r with
  | none => (Outcome.nilDeref, c)
  | some h =>
    match Replica.GetUsage E h c with
    | ((u, err), c1) => (Outcome.ret (u, passErr err), c1)

/-! ## A scripted Engine

A small concrete Engine, used only to instantiate the theorems below at
explicit inputs.  Handles are natural numbers; the world is a script saying
what each operation answers. -/

/-- The world of the scripted Engine. -/
structure Script where
  persisted : Info × Option ExtError
  live : Info
  constructErr : Option ExtError
  closeErr : Option ExtError
  deleteErr : Option ExtError
  reloadErr : Option ExtError
  revertErr : Option ExtError
  setRebuildingErr : Option ExtError
  otherErr : Option ExtError
  count : Int
  deriving DecidableEq, Repr

/-- The answer of a scripted operation that yields a fresh handle. -/
def Script.fresh (err : Option ExtError) (h : Nat) (w : Script) : Except ExtError Nat × Script :=
  match err with
  | some e => (Except.error e, w)
  | none => (Except.ok h, w)

/-- The scripted Engine: construction writes the metadata, `setRebuilding`
flips the live flag, every other operation answers what the script says. -/
def scripted : Engine Nat Script where
  construct := fun size sectorSize _ _ _ w =>
    match w.constructErr with
    | some e => (Except.error e, w)
    | none => (Except.ok 1, { w with persisted := (⟨size, sectorSize, false, false, 0, 0⟩, none) })
  readInfo := fun _ w => w.persisted
  info := fun _ w => w.live
  close := fun _ w => (w.closeErr, w)
  reload := fun h w => Script.fresh w.reloadErr (h + 1) w
  revert := fun h _ _ w => Script.fresh w.revertErr (h + 1) w
  snapshot := fun _ _ _ _ w => (w.otherErr, w)
  removeDiffDisk := fun _ _ w => (w.otherErr, w)
  replaceDisk := fun _ _ _ w => (w.otherErr, w)
  prepareRemoveDisk := fun _ name w => ((some [⟨name⟩], w.otherErr), w)
  delete := fun _ w => (w.deleteErr, w)
  writeAt := fun _ _ _ w => ((w.count, w.otherErr), w)
  readAt := fun _ _ _ w => ((w.count, w.otherErr), w)
  resize := fun _ _ w => (w.otherErr, w)
  setRebuilding := fun _ b w =>
    match w.setRebuildingErr with
    | some e => (some e, w)
    | none => (none, { w with live := { w.live with Rebuilding := b } })
  setRevisionCounter := fun _ _ w => (w.otherErr, w)
  updatePeerDetails := fun _ _ w => (w.otherErr, w)
  getUsage := fun _ w => ((some ⟨[]⟩, w.otherErr), w)
  revisionCache := fun _ w => w.live.RevisionCounter
  peerCacheReplicaCount := fun _ w => w.live.PeerCount

/-- The error "no such file or directory". -/
def enoent : ExtError := ⟨"no such file or directory", true⟩

/-- An input/output error that is not a not-found error. -/
def eio : ExtError := ⟨"input/output error", false⟩

/-- A script on a fresh directory: no metadata, every operation succeeds. -/
def freshScript : Script :=
  { persisted := (Info.zero, some enoent), live := Info.zero, constructErr := none,
    closeErr := none, deleteErr := none, reloadErr := none, revertErr := none,
    setRebuildingErr := none, otherErr := none, count := 512 }

/-- A script with readable metadata of the given flags, also answered live. -/
def diskScript (dirty rebuilding : Bool) : Script :=
  { freshScript with
    persisted := (⟨4096, 512, dirty, rebuilding, 0, 0⟩, none),
    live := ⟨4096, 512, dirty, rebuilding, 0, 0⟩ }

/-- A coordinator as `NewServer` builds it (no handle, no backing file) on
the given world. -/
def sysClosed (w : Script) : Sys Nat Script :=
  { s := { r := none, ServerType := "", dir := "/vol", defaultSectorSize := 512, backing := none },
    world := w, trace := [] }

/-- A coordinator holding the handle `7` on the given world. -/
def sysLoaded (w : Script) : Sys Nat Script :=
  { s := { r := some 7, ServerType := "", dir := "/vol", defaultSectorSize := 512,
           backing := none },
    world := w, trace := [] }

/-- A coordinator on a fresh directory with a backing file of size `8192`
whose sector size is not set. -/
def sysBacked : Sys Nat Script :=
  { s := { r := none, ServerType := "", dir := "/vol", defaultSectorSize := 512,
           backing := some ⟨8192, 0⟩ },
    world := freshScript, trace := [] }

/-! ## Basic facts -/

/-- The state derivation does not depend on the trace. -/
theorem Status_log (E : Engine H W) (c : Sys H W) (ev : Event H) :
    Server.Status E (c.log ev) = Server.Status E c := rfl

/-- An Engine result passed through is nil exactly when the Engine's is. -/
theorem passErr_eq_none (e : Option ExtError) : passErr e = none ↔ e = none := by
  cases e <;> simp [passErr]

/-- An Engine result passed through is an error exactly when the Engine's is,
and then it is that error. -/
theorem passErr_eq_some (e : Option ExtError) (g : GoError) :
    passErr e = some g ↔ ∃ x, e = some x ∧ g = GoError.external x := by
  cases e with
  | none => simp [passErr]
  | some x =>
    simp only [passErr, Option.some.injEq]
    constructor
    · intro hg
      exact ⟨x, rfl, hg.symm⟩
    · rintro ⟨y, hy, hg⟩
      rw [hg, hy]

/-- The state derivation reads only the coordinator's fields and the world. -/
theorem Status_trace (E : Engine H W) (c : Sys H W) (t : List (Event H)) :
    Server.Status E { s := c.s, world := c.world, trace := t } = Server.Status E c := rfl

/-- With a handle loaded the derived state is Open, Dirty or Rebuilding. -/
theorem Status_loaded (E : Engine H W) (c : Sys H W) (h : H) (hr : c.s.r = some h) :
    (Server.Status E c).1 = State.Open ∨ (Server.Status E c).1 = State.Dirty ∨
      (Server.Status E c).1 = State.Rebuilding := by
  unfold Server.Status
  rw [hr]
  dsimp only
  split
  · exact Or.inr (Or.inr rfl)
  · split
    · exact Or.inr (Or.inl rfl)
    · exact Or.inl rfl

/-- With no handle loaded the derived state is Initial, Error or Closed. -/
theorem Status_unloaded (E : Engine H W) (c : Sys H W) (hr : c.s.r = none) :
    (Server.Status E c).1 = State.Initial ∨ (Server.Status E c).1 = State.Error ∨
      (Server.Status E c).1 = State.Closed := by
  unfold Server.Status
  rw [hr]
  dsimp only
  split
  · exact Or.inl rfl
  · split
    · exact Or.inr (Or.inl rfl)
    · exact Or.inr (Or.inr rfl)

/-! ## State derivation -/

/-- C1: `Status` follows the table of spec §4.1.  With no Engine loaded it is
Initial on a not-found metadata read, Error on any other read error, and
Closed with the persisted Info otherwise, whatever the flags of that Info;
with an Engine loaded it is Rebuilding if the live Info says rebuilding, else
Dirty if it says dirty, else Open, each time with the live Info. -/
theorem Status_matches_table (E : Engine H W) (c : Sys H W) :
    (c.s.r = none → osIsNotExist (E.readInfo c.s.dir c.world).2 = true →
      Server.Status E c = (State.Initial, Info.zero)) ∧
    (c.s.r = none → (E.readInfo c.s.dir c.world).2 ≠ none →
      osIsNotExist (E.readInfo c.s.dir c.world).2 = false →
      Server.Status E c = (State.Error, Info.zero)) ∧
    (c.s.r = none → (E.readInfo c.s.dir c.world).2 = none →
      Server.Status E c = (State.Closed, (E.readInfo c.s.dir c.world).1)) ∧
    (∀ h, c.s.r = some h → (E.info h c.world).Rebuilding = true →
      Server.Status E c = (State.Rebuilding, E.info h c.world)) ∧
    (∀ h, c.s.r = some h → (E.info h c.world).Rebuilding = false →
      (E.info h c.world).Dirty = true →
      Server.Status E c = (State.Dirty, E.info h c.world)) ∧
    (∀ h, c.s.r = some h → (E.info h c.world).Rebuilding = false →
      (E.info h c.world).Dirty = false →
      Server.Status E c = (State.Open, E.info h c.world)) := by
  refine ⟨?_, ?_, ?_, ?_, ?_, ?_⟩
  · intro hr hne
    simp [Server.Status, hr, hne]
  · intro hr herr hne
    simp [Server.Status, hr, hne, herr]
  · intro hr herr
    simp [Server.Status, hr, herr, osIsNotExist]
  · intro h hr hreb
    simp [Server.Status, hr, hreb]
  · intro h hr hreb hd
    simp [Server.Status, hr, hreb, hd]
  · intro h hr hreb hd
    simp [Server.Status, hr, hreb, hd]

/-- C1 at concrete inputs: metadata on disk with both flags set and no Engine
loaded derives Closed. -/
theorem Status_matches_table_witness :
    Server.Status scripted (sysClosed (diskScript true true)) =
      (State.Closed, ⟨4096, 512, true, true, 0, 0⟩) :=
  (Status_matches_table scripted (sysClosed (diskScript true true))).2.2.1 rfl rfl

/-! ## SetRebuilding -/

/-- C2 as stated fails: in state Open, with an Engine whose `setRebuilding`
returns an error, `SetRebuilding(true)` does not succeed although the derived
state is Open. -/
theorem SetRebuilding_open_engine_error :
    ¬ ((Server.SetRebuilding scripted true
          (sysLoaded { diskScript false false with setRebuildingErr := some eio })).1
          = Outcome.ret none ↔
        ((Server.Status scripted
            (sysLoaded { diskScript false false with setRebuildingErr := some eio })).1
            = State.Open ∨
         (Server.Status scripted
            (sysLoaded { diskScript false false with setRebuildingErr := some eio })).1
            = State.Dirty)) := by
  decide

/-- C2, amended: the transition guard of `SetRebuilding` passes exactly when
the argument is true and the derived state is Open or Dirty, or the argument
is false and the derived state is Rebuilding.  When it passes, a handle is
loaded, the Engine's `setRebuilding` is invoked once on it and its result is
returned unchanged, so the call succeeds iff the guard passes and the Engine
succeeds.  When it does not pass, the InvalidTransition error naming the
argument and the state is returned, the Engine is not invoked, and the
coordinator and the world (hence the persisted flags) are unchanged. -/
theorem SetRebuilding_guard (E : Engine H W) (rebuilding : Bool) (c : Sys H W) :
    (((rebuilding = true ∧
          ((Server.Status E c).1 = State.Open ∨ (Server.Status E c).1 = State.Dirty)) ∨
        (rebuilding = false ∧ (Server.Status E c).1 = State.Rebuilding)) →
      ∃ h, c.s.r = some h ∧
        Server.SetRebuilding E rebuilding c =
          (Outcome.ret (passErr (E.setRebuilding h rebuilding c.world).1),
           { s := c.s, world := (E.setRebuilding h rebuilding c.world).2,
             trace := c.trace ++ [Event.Lock, Event.SetRebuilding h rebuilding, Event.Unlock] })) ∧
    (¬ ((rebuilding = true ∧
          ((Server.Status E c).1 = State.Open ∨ (Server.Status E c).1 = State.Dirty)) ∨
        (rebuilding = false ∧ (Server.Status E c).1 = State.Rebuilding)) →
      Server.SetRebuilding E rebuilding c =
        (Outcome.ret (some (GoError.Errorf
          ("Can not set rebuilding=" ++ fmtBool rebuilding ++ " from state " ++
            (Server.Status E c).1.str))),
         { s := c.s, world := c.world, trace := c.trace ++ [Event.Lock, Event.Unlock] })) ∧
    ((Server.SetRebuilding E rebuilding c).1 = Outcome.ret none ↔
      ((rebuilding = true ∧
          ((Server.Status E c).1 = State.Open ∨ (Server.Status E c).1 = State.Dirty)) ∨
        (rebuilding = false ∧ (Server.Status E c).1 = State.Rebuilding)) ∧
      ∃ h, c.s.r = some h ∧ (E.setRebuilding h rebuilding c.world).1 = none) := by
  cases hr : c.s.r with
  | none =>
    rcases Status_unloaded E c hr with hst | hst | hst <;>
      cases rebuilding <;>
      simp [Server.SetRebuilding, exclusive, Status_trace, hst, hr, Sys.log, fmtBool]
  | some h =>
    rcases Status_loaded E c h hr with hst | hst | hst <;>
      cases rebuilding <;>
      simp [Server.SetRebuilding, exclusive, Status_trace, hst, hr, Sys.log, fmtBool,
        Replica.SetRebuilding, Sys.invoke, passErr_eq_none]

/-- C2 amended, at concrete inputs: from state Open the call is delegated to
the handle `7`; from state Closed it is refused and nothing changes. -/
theorem SetRebuilding_guard_witness :
    (∃ h, (sysLoaded (diskScript false false)).s.r = some h ∧
      Server.SetRebuilding scripted true (sysLoaded (diskScript false false)) =
        (Outcome.ret (passErr
            (scripted.setRebuilding h true (sysLoaded (diskScript false false)).world).1),
         { s := (sysLoaded (diskScript false false)).s,
           world := (scripted.setRebuilding h true (sysLoaded (diskScript false false)).world).2,
           trace := (sysLoaded (diskScript false false)).trace ++
             [Event.Lock, Event.SetRebuilding h true, Event.Unlock] })) ∧
    Server.SetRebuilding scripted false (sysClosed (diskScript false true)) =
      (Outcome.ret (some (GoError.Errorf
        ("Can not set rebuilding=" ++ fmtBool false ++ " from state " ++
          (Server.Status scripted (sysClosed (diskScript false true))).1.str))),
       { s := (sysClosed (diskScript false true)).s,
         world := (sysClosed (diskScript false true)).world,
         trace := (sysClosed (diskScript false true)).trace ++ [Event.Lock, Event.Unlock] }) :=
  ⟨(SetRebuilding_guard scripted true (sysLoaded (diskScript false false))).1
      (Or.inl ⟨rfl, Or.inl (by decide)⟩),
   (SetRebuilding_guard scripted false (sysClosed (diskScript false true))).2.1 (by decide)⟩

/-! ## Delete and Close -/

/-- C3: the ordering inside `Delete` when a handle `h` is loaded.  If the
Engine's close fails, that error is returned, the Engine's delete is not
invoked and the handle stays `h`.  If close succeeds, the Engine's delete is
invoked (on the world close left), the handle is nil afterwards whatever
delete answers, and the result of `Delete` is exactly delete's result. -/
theorem Delete_ordering (E : Engine H W) (c : Sys H W) (h : H) (hr : c.s.r = some h) :
    (∀ e, (E.close h c.world).1 = some e →
      Server.Delete E c =
        (some (GoError.external e),
         { s := c.s, world := (E.close h c.world).2,
           trace := c.trace ++ [Event.Lock, Event.Close h, Event.Unlock] }) ∧
      (Server.Delete E c).2.s.r = some h) ∧
    ((E.close h c.world).1 = none →
      Server.Delete E c =
        (passErr (E.delete h (E.close h c.world).2).1,
         { s := { c.s with r := none }, world := (E.delete h (E.close h c.world).2).2,
           trace := c.trace ++ [Event.Lock, Event.Close h, Event.Delete h, Event.Unlock] }) ∧
      (Server.Delete E c).2.s.r = none) := by
  constructor
  · intro e he
    simp [Server.Delete, exclusive, Sys.log, hr, Replica.Close, Sys.invoke, he]
  · intro he
    simp [Server.Delete, exclusive, Sys.log, hr, Replica.Close, Replica.Delete, Sys.invoke, he,
      Sys.setR]

/-- C3 at a concrete input: close succeeds and delete fails, so the handle is
cleared and the delete error is returned. -/
theorem Delete_ordering_witness :
    (Server.Delete scripted (sysLoaded { freshScript with deleteErr := some eio })).1 =
        some (GoError.external eio) ∧
      (Server.Delete scripted (sysLoaded { freshScript with deleteErr := some eio })).2.s.r =
        none :=
  ⟨((Delete_ordering scripted (sysLoaded { freshScript with deleteErr := some eio }) 7 rfl).2
      rfl).1 ▸ rfl,
   ((Delete_ordering scripted (sysLoaded { freshScript with deleteErr := some eio }) 7 rfl).2
      rfl).2⟩

/-- C5: `Close` with no handle loaded succeeds without invoking the Engine;
with a handle `h` loaded it invokes the Engine's close once, returns the close
error and keeps `h` when close fails, and returns success with the handle
cleared when close succeeds; so the handle is cleared iff close succeeded. -/
theorem Close_spec (E : Engine H W) (c : Sys H W) :
    (c.s.r = none →
      Server.Close E c =
        (none, { s := c.s, world := c.world, trace := c.trace ++ [Event.Lock, Event.Unlock] })) ∧
    (∀ h e, c.s.r = some h → (E.close h c.world).1 = some e →
      Server.Close E c =
        (some (GoError.external e),
         { s := c.s, world := (E.close h c.world).2,
           trace := c.trace ++ [Event.Lock, Event.Close h, Event.Unlock] })) ∧
    (∀ h, c.s.r = some h → (E.close h c.world).1 = none →
      Server.Close E c =
        (none,
         { s := { c.s with r := none }, world := (E.close h c.world).2,
           trace := c.trace ++ [Event.Lock, Event.Close h, Event.Unlock] })) ∧
    (∀ h, c.s.r = some h →
      ((Server.Close E c).2.s.r = none ↔ (E.close h c.world).1 = none) ∧
      ((Server.Close E c).2.s.r = none ∨ (Server.Close E c).2.s.r = some h)) := by
  refine ⟨?_, ?_, ?_, ?_⟩
  · intro hr
    simp [Server.Close, exclusive, Sys.log, hr]
  · intro h e hr he
    simp [Server.Close, exclusive, Sys.log, hr, Replica.Close, Sys.invoke, he]
  · intro h hr he
    simp [Server.Close, exclusive, Sys.log, hr, Replica.Close, Sys.invoke, he, Sys.setR]
  · intro h hr
    cases he : (E.close h c.world).1 <;>
      simp [Server.Close, exclusive, Sys.log, hr, Replica.Close, Sys.invoke, he, Sys.setR]

/-- C5 at a concrete input: a failing close keeps the handle `7`. -/
theorem Close_spec_witness :
    Server.Close scripted (sysLoaded { freshScript with closeErr := some eio }) =
      (some (GoError.external eio),
       { s := (sysLoaded { freshScript with closeErr := some eio }).s,
         world := (scripted.close 7 (sysLoaded { freshScript with closeErr := some eio }).world).2,
         trace := (sysLoaded { freshScript with closeErr := some eio }).trace ++
           [Event.Lock, Event.Close 7, Event.Unlock] }) :=
  (Close_spec scripted (sysLoaded { freshScript with closeErr := some eio })).2.1 7 eio rfl rfl

/-! ## Create, Open, Reload -/

/-- C6: `Create` is idempotent.  Whenever the derived state is not Initial,
`Create(size)` returns success for every size, invokes no Engine operation
(the trace gains only the lock and the unlock) and leaves the coordinator and
the world as they were.  In particular, if the state after a first
`Create(size1)` is not Initial, a second `Create(size2)` is such a no-op,
whatever the two sizes are. -/
theorem Create_idempotent (E : Engine H W) :
    (∀ (size : Int) (c : Sys H W), (Server.Status E c).1 ≠ State.Initial →
      Server.Create E size c =
        (none, { s := c.s, world := c.world, trace := c.trace ++ [Event.Lock, Event.Unlock] })) ∧
    (∀ (size1 size2 : Int) (c : Sys H W),
      (Server.Status E (Server.Create E size1 c).2).1 ≠ State.Initial →
      Server.Create E size2 (Server.Create E size1 c).2 =
        (none, { s := (Server.Create E size1 c).2.s, world := (Server.Create E size1 c).2.world,
                 trace := (Server.Create E size1 c).2.trace ++ [Event.Lock, Event.Unlock] })) := by
  have key : ∀ (size : Int) (c : Sys H W), (Server.Status E c).1 ≠ State.Initial →
      Server.Create E size c =
        (none, { s := c.s, world := c.world, trace := c.trace ++ [Event.Lock, Event.Unlock] }) := by
    intro size c hst
    simp [Server.Create, exclusive, Status_trace, Sys.log, hst]
  exact ⟨key, fun size1 size2 c hst => key size2 _ hst⟩

/-- C6 at a concrete input: on a fresh directory `Create(4096)` succeeds and
leaves state Closed, and a following `Create(8192)` succeeds as a no-op. -/
theorem Create_idempotent_witness :
    (Server.Create scripted 4096 (sysClosed freshScript)).1 = none ∧
    (Server.Status scripted (Server.Create scripted 4096 (sysClosed freshScript)).2).1 =
      State.Closed ∧
    Server.Create scripted 8192 (Server.Create scripted 4096 (sysClosed freshScript)).2 =
      (none,
       { s := (Server.Create scripted 4096 (sysClosed freshScript)).2.s,
         world := (Server.Create scripted 4096 (sysClosed freshScript)).2.world,
         trace := (Server.Create scripted 4096 (sysClosed freshScript)).2.trace ++
           [Event.Lock, Event.Unlock] }) :=
  ⟨by decide, by decide,
   (Create_idempotent scripted).2 4096 8192 (sysClosed freshScript) (by decide)⟩

/-- C7: `Open` returns the error "Replica is already open" iff a handle is
loaded, and then invokes no Engine operation and changes nothing.  With no
handle loaded it invokes the constructor once, with size
`getSize(info.Size)` for the Info of `Status` (the persisted Info when the
metadata read succeeds) and sector size `getSectorSize()`; if construction
fails its error is returned and the handle stays nil, if it succeeds the new
handle is retained and success is returned; so `Open` succeeds iff
construction succeeds. -/
theorem Open_spec (E : Engine H W) (c : Sys H W) :
    ((Server.Open E c).1 = some (GoError.Errorf "Replica is already open") ↔ c.s.r ≠ none) ∧
    (∀ h, c.s.r = some h →
      Server.Open E c =
        (some (GoError.Errorf "Replica is already open"),
         { s := c.s, world := c.world, trace := c.trace ++ [Event.Lock, Event.Unlock] })) ∧
    (c.s.r = none → ∀ e,
      (E.construct (c.s.getSize (Server.Status E c).2.Size) c.s.getSectorSize c.s.dir c.s.backing
          c.s.ServerType c.world).1 = Except.error e →
      Server.Open E c =
        (some (GoError.external e),
         { s := c.s,
           world := (E.construct (c.s.getSize (Server.Status E c).2.Size) c.s.getSectorSize
              c.s.dir c.s.backing c.s.ServerType c.world).2,
           trace := c.trace ++
             [Event.Lock,
              Event.New (c.s.getSize (Server.Status E c).2.Size) c.s.getSectorSize c.s.dir
                c.s.backing c.s.ServerType,
              Event.Unlock] })) ∧
    (c.s.r = none → ∀ r,
      (E.construct (c.s.getSize (Server.Status E c).2.Size) c.s.getSectorSize c.s.dir c.s.backing
          c.s.ServerType c.world).1 = Except.ok r →
      Server.Open E c =
        (none,
         { s := { c.s with r := some r },
           world := (E.construct (c.s.getSize (Server.Status E c).2.Size) c.s.getSectorSize
              c.s.dir c.s.backing c.s.ServerType c.world).2,
           trace := c.trace ++
             [Event.Lock,
              Event.New (c.s.getSize (Server.Status E c).2.Size) c.s.getSectorSize c.s.dir
                c.s.backing c.s.ServerType,
              Event.Unlock] })) ∧
    (c.s.r = none → (E.readInfo c.s.dir c.world).2 = none →
      (Server.Status E c).2 = (E.readInfo c.s.dir c.world).1) ∧
    (c.s.r = none →
      ((Server.Open E c).1 = none ↔
        ∃ r, (E.construct (c.s.getSize (Server.Status E c).2.Size) c.s.getSectorSize c.s.dir
          c.s.backing c.s.ServerType c.world).1 = Except.ok r)) := by
  refine ⟨?_, ?_, ?_, ?_, ?_, ?_⟩
  · cases hr : c.s.r with
    | some h => simp [Server.Open, exclusive, Sys.log, hr]
    | none =>
      cases hn : (E.construct (c.s.getSize (Server.Status E c).2.Size) c.s.getSectorSize c.s.dir
          c.s.backing c.s.ServerType c.world).1 <;>
        simp [Server.Open, exclusive, Sys.log, hr, New, Sys.invoke, Status_trace, hn]
  · intro h hr
    simp [Server.Open, exclusive, Sys.log, hr]
  · intro hr e hn
    simp [Server.Open, exclusive, Sys.log, hr, New, Sys.invoke, Status_trace, hn]
  · intro hr r hn
    simp [Server.Open, exclusive, Sys.log, hr, New, Sys.invoke, Status_trace, hn, Sys.setR]
  · intro hr herr
    simp [Server.Status, hr, herr, osIsNotExist]
  · intro hr
    cases hn : (E.construct (c.s.getSize (Server.Status E c).2.Size) c.s.getSectorSize c.s.dir
        c.s.backing c.s.ServerType c.world).1 <;>
      simp [Server.Open, exclusive, Sys.log, hr, New, Sys.invoke, Status_trace, hn]

/-- C7 at a concrete input: with metadata of size 4096 on disk and no handle,
`Open` constructs with size 4096 and sector size 512 and retains handle `1`. -/
theorem Open_spec_witness :
    Server.Open scripted (sysClosed (diskScript false false)) =
      (none,
       { s := { (sysClosed (diskScript false false)).s with r := some 1 },
         world := (scripted.construct 4096 512 "/vol" none "" (diskScript false false)).2,
         trace := [Event.Lock, Event.New 4096 512 "/vol" none "", Event.Unlock] }) :=
  (Open_spec scripted (sysClosed (diskScript false false))).2.2.2.1 rfl 1 rfl

/-- C8: `Reload` with no handle loaded succeeds and invokes no Engine
operation.  With a handle `h` loaded it invokes the Engine's reload on `h`;
if that fails the error is returned, `h` is still the handle and is not
closed; if it succeeds with a new handle `n`, the handle becomes `n`, the
Engine's close is invoked on `h` exactly once, after the reload, and success
is returned. -/
theorem Reload_spec (E : Engine H W) (c : Sys H W) :
    (c.s.r = none →
      Server.Reload E c =
        (none, { s := c.s, world := c.world, trace := c.trace ++ [Event.Lock, Event.Unlock] })) ∧
    (∀ h e, c.s.r = some h → (E.reload h c.world).1 = Except.error e →
      Server.Reload E c =
        (some (GoError.external e),
         { s := c.s, world := (E.reload h c.world).2,
           trace := c.trace ++ [Event.Lock, Event.Reload h, Event.Unlock] })) ∧
    (∀ h n, c.s.r = some h → (E.reload h c.world).1 = Except.ok n →
      Server.Reload E c =
        (none,
         { s := { c.s with r := some n }, world := (E.close h (E.reload h c.world).2).2,
           trace := c.trace ++ [Event.Lock, Event.Reload h, Event.Close h, Event.Unlock] })) := by
  refine ⟨?_, ?_, ?_⟩
  · intro hr
    simp [Server.Reload, exclusive, Sys.log, hr]
  · intro h e hr he
    simp [Server.Reload, exclusive, Sys.log, hr, Replica.Reload, Sys.invoke, he]
  · intro h n hr hn
    simp [Server.Reload, exclusive, Sys.log, hr, Replica.Reload, Replica.Close, Sys.invoke, hn,
      Sys.setR]

/-- C8 at a concrete input: reloading handle `7` swaps to handle `8` and
closes `7` once. -/
theorem Reload_spec_witness :
    Server.Reload scripted (sysLoaded (diskScript false false)) =
      (none,
       { s := { (sysLoaded (diskScript false false)).s with r := some 8 },
         world := (scripted.close 7 (scripted.reload 7 (diskScript false false)).2).2,
         trace := [Event.Lock, Event.Reload 7, Event.Close 7, Event.Unlock] }) :=
  (Reload_spec scripted (sysLoaded (diskScript false false))).2.2 7 8 rfl rfl

/-! ## PingResponse and the data-plane path -/

/-- C9: `PingResponse` succeeds iff the derived state is Open, Dirty or
Rebuilding; in each of the states Initial, Closed and Error it returns the
error "ping failure: replica state " followed by the state's string.  With a
handle loaded whose Info is dirty it succeeds; with no handle and readable
metadata it fails with "ping failure: replica state closed". -/
theorem PingResponse_spec (E : Engine H W) (c : Sys H W) :
    (Server.PingResponse E c = none ↔
      ((Server.Status E c).1 = State.Open ∨ (Server.Status E c).1 = State.Dirty ∨
        (Server.Status E c).1 = State.Rebuilding)) ∧
    (((Server.Status E c).1 = State.Initial ∨ (Server.Status E c).1 = State.Closed ∨
        (Server.Status E c).1 = State.Error) →
      Server.PingResponse E c =
        some (GoError.Errorf ("ping failure: replica state " ++ (Server.Status E c).1.str))) ∧
    (∀ h, c.s.r = some h → (E.info h c.world).Dirty = true → Server.PingResponse E c = none) ∧
    (c.s.r = none → (E.readInfo c.s.dir c.world).2 = none →
      Server.PingResponse E c = some (GoError.Errorf "ping failure: replica state closed")) := by
  refine ⟨?_, ?_, ?_, ?_⟩
  · cases hst : (Server.Status E c).1 <;> simp [Server.PingResponse, hst]
  · intro hst
    rcases hst with hst | hst | hst <;> simp [Server.PingResponse, hst]
  · intro h hr hd
    cases hreb : (E.info h c.world).Rebuilding <;>
      simp [Server.PingResponse, Server.Status, hr, hd, hreb]
  · intro hr herr
    simp [Server.PingResponse, Server.Status, hr, herr, osIsNotExist, State.str]

/-- C9 at concrete inputs: a loaded Engine with the dirty flag answers the
ping; a closed replica refuses it naming the state "closed". -/
theorem PingResponse_spec_witness :
    Server.PingResponse scripted (sysLoaded (diskScript true false)) = none ∧
    Server.PingResponse scripted (sysClosed (diskScript true false)) =
      some (GoError.Errorf "ping failure: replica state closed") :=
  ⟨(PingResponse_spec scripted (sysLoaded (diskScript true false))).2.2.1 7 rfl rfl,
   (PingResponse_spec scripted (sysClosed (diskScript true false))).2.2.2 rfl rfl⟩

/-- C10: for every buffer and offset, `WriteAt` and `ReadAt` with no handle
loaded return `(0, "Volume no longer exist")` and invoke no Engine operation;
with a handle `h` loaded they invoke the Engine's `writeAt`, resp. `readAt`,
once on `h` with the same buffer and offset and return its byte count and
error unchanged.  In both cases the coordinator's fields, the handle among
them, are unchanged. -/
theorem WriteAt_ReadAt_spec (E : Engine H W) (buf : List Nat) (offset : Int) (c : Sys H W) :
    (c.s.r = none →
      Server.WriteAt E buf offset c =
        ((0, some (GoError.Errorf "Volume no longer exist")),
         { s := c.s, world := c.world, trace := c.trace ++ [Event.RLock, Event.RUnlock] }) ∧
      Server.ReadAt E buf offset c =
        ((0, some (GoError.Errorf "Volume no longer exist")),
         { s := c.s, world := c.world, trace := c.trace ++ [Event.RLock, Event.RUnlock] })) ∧
    (∀ h, c.s.r = some h →
      Server.WriteAt E buf offset c =
        (((E.writeAt h buf offset c.world).1.1, passErr (E.writeAt h buf offset c.world).1.2),
         { s := c.s, world := (E.writeAt h buf offset c.world).2,
           trace := c.trace ++ [Event.RLock, Event.WriteAt h buf offset, Event.RUnlock] }) ∧
      Server.ReadAt E buf offset c =
        (((E.readAt h buf offset c.world).1.1, passErr (E.readAt h buf offset c.world).1.2),
         { s := c.s, world := (E.readAt h buf offset c.world).2,
           trace := c.trace ++ [Event.RLock, Event.ReadAt h buf offset, Event.RUnlock] })) ∧
    (Server.WriteAt E buf offset c).2.s = c.s ∧
    (Server.ReadAt E buf offset c).2.s = c.s := by
  refine ⟨?_, ?_, ?_, ?_⟩
  · intro hr
    simp [Server.WriteAt, Server.ReadAt, shared, Sys.log, hr]
  · intro h hr
    simp [Server.WriteAt, Server.ReadAt, shared, Sys.log, hr, Replica.WriteAt, Replica.ReadAt,
      Sys.invoke]
  · cases hr : c.s.r <;>
      simp [Server.WriteAt, shared, Sys.log, hr, Replica.WriteAt, Sys.invoke]
  · cases hr : c.s.r <;>
      simp [Server.ReadAt, shared, Sys.log, hr, Replica.ReadAt, Sys.invoke]

/-- C10 at concrete inputs: a write with no handle is refused; a read through
handle `7` returns the Engine's count `512` and no error. -/
theorem WriteAt_ReadAt_spec_witness :
    (Server.WriteAt scripted [1, 2, 3] 0 (sysClosed freshScript)).1 =
      (0, some (GoError.Errorf "Volume no longer exist")) ∧
    (Server.ReadAt scripted [0, 0, 0] 4096 (sysLoaded (diskScript false false))).1 =
      (512, none) :=
  ⟨((WriteAt_ReadAt_spec scripted [1, 2, 3] 0 (sysClosed freshScript)).1 rfl).1 ▸ rfl,
   ((WriteAt_ReadAt_spec scripted [0, 0, 0] 4096 (sysLoaded (diskScript false false))).2.1 7
      rfl).2 ▸ rfl⟩

/-! ## Errors and the in-memory handle -/

/-- The method `Create` never assigns a field of the coordinator. -/
theorem Create_keeps_server (E : Engine H W) (size : Int) (c : Sys H W) :
    (Server.Create E size c).2.s = c.s := by
  by_cases hst : (Server.Status E c).1 = State.Initial
  · cases hn : (E.construct (c.s.getSize size) c.s.getSectorSize c.s.dir c.s.backing
        c.s.ServerType c.world).1 <;>
      simp [Server.Create, exclusive, Sys.log, New, Replica.Close, Sys.invoke, Status_trace,
        hst, hn]
  · simp [Server.Create, exclusive, Sys.log, Status_trace, hst]

/-- The method `SetRebuilding` never assigns a field of the coordinator. -/
theorem SetRebuilding_keeps_server (E : Engine H W) (rebuilding : Bool) (c : Sys H W) :
    (Server.SetRebuilding E rebuilding c).2.s = c.s := by
  cases hr : c.s.r with
  | none =>
    rcases Status_unloaded E c hr with hst | hst | hst <;>
      cases rebuilding <;>
      simp [Server.SetRebuilding, exclusive, Status_trace, hst, hr, Sys.log]
  | some h =>
    rcases Status_loaded E c h hr with hst | hst | hst <;>
      cases rebuilding <;>
      simp [Server.SetRebuilding, exclusive, Status_trace, hst, hr, Sys.log,
        Replica.SetRebuilding, Sys.invoke]

/-- C4: an administrative method that returns an error leaves the handle as
it was.  This holds for Create, Open, Reload, Revert, Snapshot,
RemoveDiffDisk, ReplaceDisk, PrepareRemoveDisk, SetRebuilding,
SetRevisionCounter, UpdatePeerDetails and Close.  `Delete` is the one
exception: when it returns an error with the handle changed, a handle was
loaded, the Engine's close on it succeeded, the Engine's delete failed with
exactly the error returned, and the handle is now nil. -/
theorem error_keeps_handle (E : Engine H W) (c : Sys H W) :
    (∀ size e, (Server.Create E size c).1 = some e →
      (Server.Create E size c).2.s.r = c.s.r) ∧
    (∀ e, (Server.Open E c).1 = some e → (Server.Open E c).2.s.r = c.s.r) ∧
    (∀ e, (Server.Reload E c).1 = some e → (Server.Reload E c).2.s.r = c.s.r) ∧
    (∀ name created e, (Server.Revert E name created c).1 = some e →
      (Server.Revert E name created c).2.s.r = c.s.r) ∧
    (∀ name userCreated createdTime e,
      (Server.Snapshot E name userCreated createdTime c).1 = some e →
      (Server.Snapshot E name userCreated createdTime c).2.s.r = c.s.r) ∧
    (∀ name e, (Server.RemoveDiffDisk E name c).1 = some e →
      (Server.RemoveDiffDisk E name c).2.s.r = c.s.r) ∧
    (∀ target source e, (Server.ReplaceDisk E target source c).1 = some e →
      (Server.ReplaceDisk E target source c).2.s.r = c.s.r) ∧
    (∀ name e, (Server.PrepareRemoveDisk E name c).1.2 = some e →
      (Server.PrepareRemoveDisk E name c).2.s.r = c.s.r) ∧
    (∀ rebuilding e, (Server.SetRebuilding E rebuilding c).1 = Outcome.ret (some e) →
      (Server.SetRebuilding E rebuilding c).2.s.r = c.s.r) ∧
    (∀ counter e, (Server.SetRevisionCounter E counter c).1 = some e →
      (Server.SetRevisionCounter E counter c).2.s.r = c.s.r) ∧
    (∀ peerDetails e, (Server.UpdatePeerDetails E peerDetails c).1 = some e →
      (Server.UpdatePeerDetails E peerDetails c).2.s.r = c.s.r) ∧
    (∀ e, (Server.Close E c).1 = some e → (Server.Close E c).2.s.r = c.s.r) ∧
    (∀ e, (Server.Delete E c).1 = some e → (Server.Delete E c).2.s.r ≠ c.s.r →
      ∃ h x, c.s.r = some h ∧ (E.close h c.world).1 = none ∧
        (E.delete h (E.close h c.world).2).1 = some x ∧ e = GoError.external x ∧
        (Server.Delete E c).2.s.r = none) := by
  refine ⟨?_, ?_, ?_, ?_, ?_, ?_, ?_, ?_, ?_, ?_, ?_, ?_, ?_⟩
  · intro size e _
    rw [Create_keeps_server]
  · intro e
    cases hr : c.s.r with
    | some h => simp [Server.Open, exclusive, Sys.log, hr]
    | none =>
      cases hn : (E.construct (c.s.getSize (Server.Status E c).2.Size) c.s.getSectorSize c.s.dir
          c.s.backing c.s.ServerType c.world).1 <;>
        simp [Server.Open, exclusive, Sys.log, hr, New, Sys.invoke, Status_trace, hn]
  · intro e
    cases hr : c.s.r with
    | none => simp [Server.Reload, exclusive, Sys.log, hr]
    | some h =>
      cases hn : (E.reload h c.world).1 <;>
        simp [Server.Reload, exclusive, Sys.log, hr, Replica.Reload, Sys.invoke, hn]
  · intro name created e
    cases hr : c.s.r with
    | none => simp [Server.Revert, exclusive, Sys.log, hr]
    | some h =>
      cases hn : (E.revert h name created c.world).1 <;>
        simp [Server.Revert, exclusive, Sys.log, hr, Replica.Revert, Sys.invoke, hn]
  · intro name userCreated createdTime e _
    cases hr : c.s.r <;>
      simp [Server.Snapshot, exclusive, Sys.log, hr, Replica.Snapshot, Sys.invoke]
  · intro name e _
    cases hr : c.s.r <;>
      simp [Server.RemoveDiffDisk, exclusive, Sys.log, hr, Replica.RemoveDiffDisk, Sys.invoke]
  · intro target source e _
    cases hr : c.s.r <;>
      simp [Server.ReplaceDisk, exclusive, Sys.log, hr, Replica.ReplaceDisk, Sys.invoke]
  · intro name e _
    cases hr : c.s.r <;>
      simp [Server.PrepareRemoveDisk, exclusive, Sys.log, hr, Replica.PrepareRemoveDisk,
        Sys.invoke]
  · intro rebuilding e _
    rw [SetRebuilding_keeps_server]
  · intro counter e _
    cases hr : c.s.r <;>
      simp [Server.SetRevisionCounter, exclusive, Sys.log, hr, Replica.SetRevisionCounter,
        Sys.invoke]
  · intro peerDetails e _
    cases hr : c.s.r <;>
      simp [Server.UpdatePeerDetails, exclusive, Sys.log, hr, Replica.UpdatePeerDetails,
        Sys.invoke]
  · intro e
    cases hr : c.s.r with
    | none => simp [Server.Close, exclusive, Sys.log, hr]
    | some h =>
      cases he : (E.close h c.world).1 <;>
        simp [Server.Close, exclusive, Sys.log, hr, Replica.Close, Sys.invoke, he]
  · intro e
    cases hr : c.s.r with
    | none => simp [Server.Delete, exclusive, Sys.log, hr]
    | some h =>
      cases he : (E.close h c.world).1 with
      | some x => simp [Server.Delete, exclusive, Sys.log, hr, Replica.Close, Sys.invoke, he]
      | none =>
        simp [Server.Delete, exclusive, Sys.log, hr, Replica.Close, Replica.Delete, Sys.invoke,
          he, Sys.setR, passErr_eq_some]

/-- C4 at concrete inputs: a failing `Close` keeps handle `7`; a `Delete`
whose close succeeds and whose delete fails returns the delete error with the
handle cleared. -/
theorem error_keeps_handle_witness :
    (Server.Close scripted (sysLoaded { freshScript with closeErr := some eio })).2.s.r =
      (sysLoaded { freshScript with closeErr := some eio }).s.r ∧
    ∃ h x, (sysLoaded { freshScript with deleteErr := some eio }).s.r = some h ∧
      (scripted.close h (sysLoaded { freshScript with deleteErr := some eio }).world).1 = none ∧
      (scripted.delete h
        (scripted.close h (sysLoaded { freshScript with deleteErr := some eio }).world).2).1 =
          some x ∧
      GoError.external eio = GoError.external x ∧
      (Server.Delete scripted (sysLoaded { freshScript with deleteErr := some eio })).2.s.r =
        none :=
  ⟨(error_keeps_handle scripted
      (sysLoaded { freshScript with closeErr := some eio })).2.2.2.2.2.2.2.2.2.2.2.1
      (GoError.external eio) (by decide),
   (error_keeps_handle scripted
      (sysLoaded { freshScript with deleteErr := some eio })).2.2.2.2.2.2.2.2.2.2.2.2
      (GoError.external eio) (by decide) (by decide)⟩

/-! ## Resize -/

/-- With a handle `h` loaded, `Resize` invokes the Engine's resize once on `h`
and returns its result unchanged; the coordinator's fields are unchanged. -/
theorem Resize_loaded (E : Engine H W) (size : String) (c : Sys H W) (h : H)
    (hr : c.s.r = some h) :
    Server.Resize E size c =
      (Outcome.ret (passErr (E.resize h size c.world).1),
       { s := c.s, world := (E.resize h size c.world).2,
         trace := c.trace ++ [Event.Lock, Event.Resize h size, Event.Unlock] }) := by
  simp [Server.Resize, exclusive, Sys.log, hr, Replica.Resize, Sys.invoke]

/-- C13: `Resize` on a coordinator with no Engine loaded.  The method has no
nil check (server.go:199-203), so the call goes through the nil handle: the
outcome is a nil dereference, not an error returned by an Engine's resize,
and no Engine operation is invoked. -/
theorem Resize_without_engine :
    Server.Resize scripted "1G" (sysClosed freshScript) =
      (Outcome.nilDeref,
       { s := (sysClosed freshScript).s, world := freshScript,
         trace := [Event.Lock, Event.Unlock] }) := by
  decide

/-! ## Create from state Initial -/

/-- C14: `Create(size)` from state Initial.  No handle is loaded; the
constructor is invoked once with `getSize(size)` and `getSectorSize()`; a
construction error is returned as it is; otherwise the new handle is closed at
once and the close result is returned; the coordinator's handle is nil
afterwards in every case.  The effective size is the backing file's size when
a backing file is configured with a positive size and the requested size
otherwise; the effective sector size is the backing file's sector size when a
backing file is configured with a positive sector size and the default sector
size otherwise; each override looks at its own field only. -/
theorem Create_initial (E : Engine H W) (size : Int) (c : Sys H W)
    (hst : (Server.Status E c).1 = State.Initial) :
    c.s.r = none ∧
    (∀ e, (E.construct (c.s.getSize size) c.s.getSectorSize c.s.dir c.s.backing
        c.s.ServerType c.world).1 = Except.error e →
      Server.Create E size c =
        (some (GoError.external e),
         { s := c.s,
           world := (E.construct (c.s.getSize size) c.s.getSectorSize c.s.dir c.s.backing
              c.s.ServerType c.world).2,
           trace := c.trace ++
             [Event.Lock,
              Event.New (c.s.getSize size) c.s.getSectorSize c.s.dir c.s.backing c.s.ServerType,
              Event.Unlock] })) ∧
    (∀ r, (E.construct (c.s.getSize size) c.s.getSectorSize c.s.dir c.s.backing
        c.s.ServerType c.world).1 = Except.ok r →
      Server.Create E size c =
        (passErr (E.close r (E.construct (c.s.getSize size) c.s.getSectorSize c.s.dir
            c.s.backing c.s.ServerType c.world).2).1,
         { s := c.s,
           world := (E.close r (E.construct (c.s.getSize size) c.s.getSectorSize c.s.dir
              c.s.backing c.s.ServerType c.world).2).2,
           trace := c.trace ++
             [Event.Lock,
              Event.New (c.s.getSize size) c.s.getSectorSize c.s.dir c.s.backing c.s.ServerType,
              Event.Close r,
              Event.Unlock] })) ∧
    (Server.Create E size c).2.s.r = none ∧
    (∀ b, c.s.backing = some b → 0 < b.Size → c.s.getSize size = b.Size) ∧
    (∀ b, c.s.backing = some b → ¬ 0 < b.Size → c.s.getSize size = size) ∧
    (c.s.backing = none → c.s.getSize size = size) ∧
    (∀ b, c.s.backing = some b → 0 < b.SectorSize → c.s.getSectorSize = b.SectorSize) ∧
    (∀ b, c.s.backing = some b → ¬ 0 < b.SectorSize →
      c.s.getSectorSize = c.s.defaultSectorSize) ∧
    (c.s.backing = none → c.s.getSectorSize = c.s.defaultSectorSize) := by
  have hr : c.s.r = none := by
    cases hr : c.s.r with
    | none => rfl
    | some h =>
      rcases Status_loaded E c h hr with h1 | h1 | h1 <;> rw [hst] at h1 <;> cases h1
  refine ⟨hr, ?_, ?_, ?_, ?_, ?_, ?_, ?_, ?_, ?_⟩
  · intro e hn
    simp [Server.Create, exclusive, Sys.log, New, Sys.invoke, Status_trace, hst, hn]
  · intro r hn
    simp [Server.Create, exclusive, Sys.log, New, Replica.Close, Sys.invoke, Status_trace,
      hst, hn]
  · rw [Create_keeps_server, hr]
  · intro b hb hpos
    simp [Server.getSize, hb, hpos]
  · intro b hb hpos
    simp [Server.getSize, hb, hpos]
  · intro hb
    simp [Server.getSize, hb]
  · intro b hb hpos
    simp [Server.getSectorSize, hb, hpos]
  · intro b hb hpos
    simp [Server.getSectorSize, hb, hpos]
  · intro hb
    simp [Server.getSectorSize, hb]

/-- C14 at a concrete input: with a backing file of size `8192` and sector
size `0`, `Create(4096)` on a fresh directory constructs with size `8192` and
the default sector size `512`, closes the new handle `1` and keeps no handle. -/
theorem Create_initial_witness :
    Server.Create scripted 4096 sysBacked =
      (none,
       { s := sysBacked.s,
         world := (scripted.close 1
            (scripted.construct 8192 512 "/vol" (some ⟨8192, 0⟩) "" freshScript).2).2,
         trace := [Event.Lock, Event.New 8192 512 "/vol" (some ⟨8192, 0⟩) "", Event.Close 1,
                   Event.Unlock] }) :=
  (Create_initial scripted 4096 sysBacked (by decide)).2.2.1 1 rfl

/-! ## Delegating methods -/

/-- C15: `Snapshot`, `RemoveDiffDisk`, `ReplaceDisk`, `SetRevisionCounter` and
`UpdatePeerDetails` return success, and `PrepareRemoveDisk` returns
`(nil, nil)`, with no Engine operation invoked when no handle is loaded.
With a handle `h` loaded each invokes the Engine operation of the same name
once on `h` with the same arguments and returns its result unchanged.  In
every case the coordinator's fields, the handle among them, are as before. -/
theorem delegation_spec (E : Engine H W) (c : Sys H W) :
    (∀ name userCreated createdTime,
      (c.s.r = none →
        Server.Snapshot E name userCreated createdTime c =
          (none, { s := c.s, world := c.world,
                   trace := c.trace ++ [Event.Lock, Event.Unlock] })) ∧
      (∀ h, c.s.r = some h →
        Server.Snapshot E name userCreated createdTime c =
          (passErr (E.snapshot h name userCreated createdTime c.world).1,
           { s := c.s, world := (E.snapshot h name userCreated createdTime c.world).2,
             trace := c.trace ++
               [Event.Lock, Event.Snapshot h name userCreated createdTime, Event.Unlock] }))) ∧
    (∀ name,
      (c.s.r = none →
        Server.RemoveDiffDisk E name c =
          (none, { s := c.s, world := c.world,
                   trace := c.trace ++ [Event.Lock, Event.Unlock] })) ∧
      (∀ h, c.s.r = some h →
        Server.RemoveDiffDisk E name c =
          (passErr (E.removeDiffDisk h name c.world).1,
           { s := c.s, world := (E.removeDiffDisk h name c.world).2,
             trace := c.trace ++ [Event.Lock, Event.RemoveDiffDisk h name, Event.Unlock] }))) ∧
    (∀ target source,
      (c.s.r = none →
        Server.ReplaceDisk E target source c =
          (none, { s := c.s, world := c.world,
                   trace := c.trace ++ [Event.Lock, Event.Unlock] })) ∧
      (∀ h, c.s.r = some h →
        Server.ReplaceDisk E target source c =
          (passErr (E.replaceDisk h target source c.world).1,
           { s := c.s, world := (E.replaceDisk h target source c.world).2,
             trace := c.trace ++
               [Event.Lock, Event.ReplaceDisk h target source, Event.Unlock] }))) ∧
    (∀ name,
      (c.s.r = none →
        Server.PrepareRemoveDisk E name c =
          ((none, none), { s := c.s, world := c.world,
                           trace := c.trace ++ [Event.Lock, Event.Unlock] })) ∧
      (∀ h, c.s.r = some h →
        Server.PrepareRemoveDisk E name c =
          (((E.prepareRemoveDisk h name c.world).1.1,
            passErr (E.prepareRemoveDisk h name c.world).1.2),
           { s := c.s, world := (E.prepareRemoveDisk h name c.world).2,
             trace := c.trace ++
               [Event.Lock, Event.PrepareRemoveDisk h name, Event.Unlock] }))) ∧
    (∀ counter,
      (c.s.r = none →
        Server.SetRevisionCounter E counter c =
          (none, { s := c.s, world := c.world,
                   trace := c.trace ++ [Event.Lock, Event.Unlock] })) ∧
      (∀ h, c.s.r = some h →
        Server.SetRevisionCounter E counter c =
          (passErr (E.setRevisionCounter h counter c.world).1,
           { s := c.s, world := (E.setRevisionCounter h counter c.world).2,
             trace := c.trace ++
               [Event.Lock, Event.SetRevisionCounter h counter, Event.Unlock] }))) ∧
    (∀ peerDetails,
      (c.s.r = none →
        Server.UpdatePeerDetails E peerDetails c =
          (none, { s := c.s, world := c.world,
                   trace := c.trace ++ [Event.Lock, Event.Unlock] })) ∧
      (∀ h, c.s.r = some h →
        Server.UpdatePeerDetails E peerDetails c =
          (passErr (E.updatePeerDetails h peerDetails c.world).1,
           { s := c.s, world := (E.updatePeerDetails h peerDetails c.world).2,
             trace := c.trace ++
               [Event.Lock, Event.UpdatePeerDetails h peerDetails, Event.Unlock] }))) := by
  refine ⟨?_, ?_, ?_, ?_, ?_, ?_⟩
  · intro name userCreated createdTime
    constructor
    · intro hr
      simp [Server.Snapshot, exclusive, Sys.log, hr]
    · intro h hr
      simp [Server.Snapshot, exclusive, Sys.log, hr, Replica.Snapshot, Sys.invoke]
  · intro name
    constructor
    · intro hr
      simp [Server.RemoveDiffDisk, exclusive, Sys.log, hr]
    · intro h hr
      simp [Server.RemoveDiffDisk, exclusive, Sys.log, hr, Replica.RemoveDiffDisk, Sys.invoke]
  · intro target source
    constructor
    · intro hr
      simp [Server.ReplaceDisk, exclusive, Sys.log, hr]
    · intro h hr
      simp [Server.ReplaceDisk, exclusive, Sys.log, hr, Replica.ReplaceDisk, Sys.invoke]
  · intro name
    constructor
    · intro hr
      simp [Server.PrepareRemoveDisk, exclusive, Sys.log, hr]
    · intro h hr
      simp [Server.PrepareRemoveDisk, exclusive, Sys.log, hr, Replica.PrepareRemoveDisk,
        Sys.invoke]
  · intro counter
    constructor
    · intro hr
      simp [Server.SetRevisionCounter, exclusive, Sys.log, hr]
    · intro h hr
      simp [Server.SetRevisionCounter, exclusive, Sys.log, hr, Replica.SetRevisionCounter,
        Sys.invoke]
  · intro peerDetails
    constructor
    · intro hr
      simp [Server.UpdatePeerDetails, exclusive, Sys.log, hr]
    · intro h hr
      simp [Server.UpdatePeerDetails, exclusive, Sys.log, hr, Replica.UpdatePeerDetails,
        Sys.invoke]

/-- C15 at concrete inputs: `PrepareRemoveDisk` with no handle answers
`(nil, nil)`; `Snapshot` through handle `7` returns the Engine's error. -/
theorem delegation_spec_witness :
    (Server.PrepareRemoveDisk scripted "disk-1" (sysClosed freshScript)).1 = (none, none) ∧
    (Server.Snapshot scripted "snap" true "now"
        (sysLoaded { freshScript with otherErr := some eio })).1 =
      some (GoError.external eio) :=
  ⟨((delegation_spec scripted (sysClosed freshScript)).2.2.2.1 "disk-1").1 rfl ▸ rfl,
   ((delegation_spec scripted (sysLoaded { freshScript with otherErr := some eio })).1
      "snap" true "now").2 7 rfl ▸ rfl⟩

/-! ## The last-committed state -/

/-- C16: `PrevStatus` is determined by the metadata read alone.  Two
coordinators on the same directory whose metadata reads give the same outcome
get the same state and Info from `PrevStatus`, whether or not either holds a
handle. -/
theorem PrevStatus_ignores_handle (E : Engine H W) (c1 c2 : Sys H W)
    (hdir : c1.s.dir = c2.s.dir)
    (hread : E.readInfo c1.s.dir c1.world = E.readInfo c1.s.dir c2.world) :
    Server.PrevStatus E c1 = Server.PrevStatus E c2 := by
  unfold Server.PrevStatus
  rw [← hdir, hread]

/-- C16 at a concrete input: dirty metadata on disk gives Dirty from
`PrevStatus` with handle `7` loaded and with no handle. -/
theorem PrevStatus_ignores_handle_witness :
    Server.PrevStatus scripted (sysLoaded (diskScript true false)) =
        Server.PrevStatus scripted (sysClosed (diskScript true false)) ∧
      Server.PrevStatus scripted (sysClosed (diskScript true false)) =
        (State.Dirty, ⟨4096, 512, true, false, 0, 0⟩) :=
  ⟨PrevStatus_ignores_handle scripted (sysLoaded (diskScript true false))
      (sysClosed (diskScript true false)) rfl rfl, by decide⟩

/-! ## Revert -/

/-- C17: `Revert` with no handle loaded succeeds and invokes no Engine
operation.  With a handle `h` loaded it invokes the Engine's revert once on
`h` with the same name and creation time; if that fails the error is returned
and the handle is still `h`; if it succeeds with a handle `n`, the handle
becomes `n` and success is returned.  In no case does the coordinator invoke
the Engine's close: the trace gains the lock, the revert and the unlock only. -/
theorem Revert_spec (E : Engine H W) (name created : String) (c : Sys H W) :
    (c.s.r = none →
      Server.Revert E name created c =
        (none, { s := c.s, world := c.world, trace := c.trace ++ [Event.Lock, Event.Unlock] })) ∧
    (∀ h e, c.s.r = some h → (E.revert h name created c.world).1 = Except.error e →
      Server.Revert E name created c =
        (some (GoError.external e),
         { s := c.s, world := (E.revert h name created c.world).2,
           trace := c.trace ++ [Event.Lock, Event.Revert h name created, Event.Unlock] })) ∧
    (∀ h n, c.s.r = some h → (E.revert h name created c.world).1 = Except.ok n →
      Server.Revert E name created c =
        (none,
         { s := { c.s with r := some n }, world := (E.revert h name created c.world).2,
           trace := c.trace ++ [Event.Lock, Event.Revert h name created, Event.Unlock] })) ∧
    (∀ x, Event.Close x ∉ (Server.Revert E name created c).2.trace.drop c.trace.length) := by
  refine ⟨?_, ?_, ?_, ?_⟩
  · intro hr
    simp [Server.Revert, exclusive, Sys.log, hr]
  · intro h e hr he
    simp [Server.Revert, exclusive, Sys.log, hr, Replica.Revert, Sys.invoke, he]
  · intro h n hr hn
    simp [Server.Revert, exclusive, Sys.log, hr, Replica.Revert, Sys.invoke, hn, Sys.setR]
  · intro x
    cases hr : c.s.r with
    | none => simp [Server.Revert, exclusive, Sys.log, hr]
    | some h =>
      cases hn : (E.revert h name created c.world).1 <;>
        simp [Server.Revert, exclusive, Sys.log, hr, Replica.Revert, Sys.invoke, hn, Sys.setR]

/-- C17 at a concrete input: reverting through handle `7` installs handle `8`
and closes nothing. -/
theorem Revert_spec_witness :
    Server.Revert scripted "snap" "now" (sysLoaded (diskScript false false)) =
      (none,
       { s := { (sysLoaded (diskScript false false)).s with r := some 8 },
         world := (scripted.revert 7 "snap" "now" (diskScript false false)).2,
         trace := [Event.Lock, Event.Revert 7 "snap" "now", Event.Unlock] }) :=
  (Revert_spec scripted "snap" "now" (sysLoaded (diskScript false false))).2.2.1 7 8 rfl rfl

/-! ## State and liveness of the handle -/

/-- C18: the derived state is Open, Dirty or Rebuilding iff a handle is
loaded, and Initial, Closed or Error iff none is, whatever the metadata read
answers; hence `PingResponse` succeeds exactly when a handle is loaded. -/
theorem Status_iff_loaded (E : Engine H W) (c : Sys H W) :
    (((Server.Status E c).1 = State.Open ∨ (Server.Status E c).1 = State.Dirty ∨
        (Server.Status E c).1 = State.Rebuilding) ↔ c.s.r ≠ none) ∧
    (((Server.Status E c).1 = State.Initial ∨ (Server.Status E c).1 = State.Closed ∨
        (Server.Status E c).1 = State.Error) ↔ c.s.r = none) ∧
    (Server.PingResponse E c = none ↔ c.s.r ≠ none) := by
  cases hr : c.s.r with
  | none =>
    rcases Status_unloaded E c hr with hst | hst | hst <;>
      simp [Server.PingResponse, hst]
  | some h =>
    rcases Status_loaded E c h hr with hst | hst | hst <;>
      simp [Server.PingResponse, hst]

/-- C18 at concrete inputs: with rebuilding metadata on disk and no handle the
ping fails; with handle `7` on a directory without metadata it succeeds. -/
theorem Status_iff_loaded_witness :
    Server.PingResponse scripted (sysClosed (diskScript false true)) ≠ none ∧
    Server.PingResponse scripted (sysLoaded freshScript) = none :=
  ⟨fun hp => (Status_iff_loaded scripted (sysClosed (diskScript false true))).2.2.1 hp rfl,
   (Status_iff_loaded scripted (sysLoaded freshScript)).2.2.2 (by decide)⟩

/-- C19: `SetRebuilding` never calls the Engine through a nil handle.  For
both values of the argument the outcome is never a nil dereference; whenever
the guard of server.go:191-192 lets the call through, a handle is loaded; and
with no handle loaded both `SetRebuilding(true)` and `SetRebuilding(false)`
return the InvalidTransition error, with nothing invoked and nothing changed,
whatever the metadata read answers. -/
theorem SetRebuilding_never_nil (E : Engine H W) (c : Sys H W) :
    (∀ rebuilding, (Server.SetRebuilding E rebuilding c).1 ≠ Outcome.nilDeref) ∧
    (∀ rebuilding,
      ((rebuilding && (Server.Status E c).1 != State.Open &&
            (Server.Status E c).1 != State.Dirty) ||
          (!rebuilding && (Server.Status E c).1 != State.Rebuilding)) = false →
      ∃ h, c.s.r = some h) ∧
    (c.s.r = none → ∀ rebuilding,
      Server.SetRebuilding E rebuilding c =
        (Outcome.ret (some (GoError.Errorf
          ("Can not set rebuilding=" ++ fmtBool rebuilding ++ " from state " ++
            (Server.Status E c).1.str))),
         { s := c.s, world := c.world, trace := c.trace ++ [Event.Lock, Event.Unlock] })) := by
  cases hr : c.s.r with
  | none =>
    rcases Status_unloaded E c hr with hst | hst | hst <;>
      refine ⟨fun rebuilding => ?_, fun rebuilding => ?_, fun _ rebuilding => ?_⟩ <;>
      cases rebuilding <;>
      simp [Server.SetRebuilding, exclusive, Status_trace, hst, hr, Sys.log]
  | some h =>
    rcases Status_loaded E c h hr with hst | hst | hst <;>
      refine ⟨fun rebuilding => ?_, fun rebuilding => ?_, fun hn => ?_⟩ <;>
      first
      | cases hn
      | (cases rebuilding <;>
          simp [Server.SetRebuilding, exclusive, Status_trace, hst, hr, Sys.log,
            Replica.SetRebuilding, Sys.invoke])

/-- C19 at concrete inputs: with no handle and the rebuilding flag persisted,
`SetRebuilding(false)` is refused; so is `SetRebuilding(true)` on clean
metadata. -/
theorem SetRebuilding_never_nil_witness :
    (Server.SetRebuilding scripted false (sysClosed (diskScript false true))).1 =
        Outcome.ret (some (GoError.Errorf "Can not set rebuilding=false from state closed")) ∧
      (Server.SetRebuilding scripted true (sysClosed (diskScript false false))).1 =
        Outcome.ret (some (GoError.Errorf "Can not set rebuilding=true from state closed")) :=
  ⟨(SetRebuilding_never_nil scripted (sysClosed (diskScript false true))).2.2 rfl false ▸ by
      decide,
   (SetRebuilding_never_nil scripted (sysClosed (diskScript false false))).2.2 rfl true ▸ by
      decide⟩

/-- C20: `Reload` drops the result of closing the old handle.  With a handle
`h` loaded and a reload that succeeds with `n`, `Reload` returns success and
the handle is `n`, whatever the Engine's close of `h` answers. -/
theorem Reload_discards_close_result (E : Engine H W) (c : Sys H W) (h n : H)
    (hr : c.s.r = some h) (hn : (E.reload h c.world).1 = Except.ok n) :
    (Server.Reload E c).1 = none ∧ (Server.Reload E c).2.s.r = some n := by
  constructor
  · simp [Server.Reload, exclusive, Sys.log, hr, Replica.Reload, Replica.Close, Sys.invoke, hn]
  · simp [Server.Reload, exclusive, Sys.log, hr, Replica.Reload, Replica.Close, Sys.invoke, hn,
      Sys.setR]

/-- C20 at a concrete input: the close of the old handle `7` fails, yet
`Reload` succeeds and the handle is `8`. -/
theorem Reload_discards_close_result_witness :
    (scripted.close 7
        (scripted.reload 7 (sysLoaded { freshScript with closeErr := some eio }).world).2).1 =
      some eio ∧
    (Server.Reload scripted (sysLoaded { freshScript with closeErr := some eio })).1 = none ∧
    (Server.Reload scripted (sysLoaded { freshScript with closeErr := some eio })).2.s.r =
      some 8 :=
  ⟨rfl,
   (Reload_discards_close_result scripted (sysLoaded { freshScript with closeErr := some eio })
      7 8 rfl rfl).1,
   (Reload_discards_close_result scripted (sysLoaded { freshScript with closeErr := some eio })
      7 8 rfl rfl).2⟩

/-! ## Locking of the read-only queries -/

/-- C11: `GetUsage` on a coordinator holding handle `7` takes no lock.  The
trace it leaves is the Engine call alone, with no acquisition of the shared
lock before the handle is read; `ReadAt` on the same coordinator brackets its
Engine call between `RLock` and `RUnlock`. -/
theorem GetUsage_takes_no_lock :
    (Server.GetUsage scripted (sysLoaded freshScript)).2.trace = [Event.GetUsage 7] ∧
    Event.RLock ∉ (Server.GetUsage scripted (sysLoaded freshScript)).2.trace ∧
    (Server.ReadAt scripted [] 0 (sysLoaded freshScript)).2.trace =
      [Event.RLock, Event.ReadAt 7 [] 0, Event.RUnlock] := by
  decide

end replica
